import Mathlib

/-!
Verification of the GLEIF → KYC normalization, validation and persistence
pipeline (`src/data_loader/` of the kyc-ai-knowledge-graph repository).

A pandas DataFrame is embedded as a `List` of records; a cell is a `PdVal`
(a missing value — numpy `NaN` or Python `None` — or a string).  All the
column-wise pandas operations used by the pipeline (`astype(str)`,
`fillna`, `.str.strip()`, `.str.upper()`, `notna`, `!= ""`, `isin`,
boolean-mask filtering, `drop_duplicates(keep="first")`) are elementwise,
so they are embedded as per-record maps and filters.
-/

namespace KycGraph

/-- A pandas cell of an object/string column: either a missing value
(numpy `NaN` or Python `None`) or a string. -/
inductive PdVal where
  | nan
  | pyNone
  | str (s : String)
  deriving DecidableEq, Repr

/-- Python `str(v)`: the rendering `astype(str)` applies to each cell.
`str(np.nan) = "nan"`, `str(None) = "None"`. -/
def py_str : PdVal → String
  | .nan => "nan"
  | .pyNone => "None"
  | .str s => s

/-- `series.astype(str)`: every cell (missing values included) is rendered
to its Python string form, so the result has no missing values. -/
def astype_str (v : PdVal) : PdVal :=
  PdVal.str (py_str v)

/-- `series.fillna(repl)`: replace missing values by `repl`. -/
def fillna (repl : String) : PdVal → PdVal
  | .nan => .str repl
  | .pyNone => .str repl
  | .str s => .str s

/-- Python `s.strip()`: remove leading and trailing whitespace. -/
def py_strip (s : String) : String :=
  ⟨((s.data.dropWhile Char.isWhitespace).reverse.dropWhile Char.isWhitespace).reverse⟩

/-- Python `s.upper()` (the identifier and status fields this is applied
to are ASCII alphanumeric codes). -/
def py_upper (s : String) : String :=
  ⟨s.data.map Char.toUpper⟩

/-- `series.str.strip()`: trim whitespace of string cells, missing values
propagate. -/
def str_strip : PdVal → PdVal
  | .str s => .str (py_strip s)
  | v => v

/-- `series.str.upper()`: upper-case string cells, missing values
propagate. -/
def str_upper : PdVal → PdVal
  | .str s => .str (py_upper s)
  | v => v

/-- `series.notna()` elementwise. -/
def pd_notna : PdVal → Bool
  | .str _ => true
  | _ => false

/-- `series.isna()` elementwise. -/
def pd_isna (v : PdVal) : Bool :=
  !(pd_notna v)

/-- Elementwise `series != t` for a string literal `t`: comparison with a
missing value yields `True` (NaN/None never equal a string). -/
def pd_ne_str (v : PdVal) (t : String) : Bool :=
  match v with
  | .str s => s ≠ t
  | _ => true

/-- `series.isin(V)` elementwise for a set of strings `V`: a missing value
is never a member. -/
def pd_isin (V : List String) (v : PdVal) : Bool :=
  match v with
  | .str s => V.contains s
  | _ => false

/-- An entity record after `LEIDataNormalizer._map_columns`: every
canonical column exists (possibly missing-valued).  The columns touched by
`_convert_types` / `_validate_required_fields` / `_standardize_values` are
embedded; remaining mapped columns (previous name, jurisdiction, authority
and date columns) pass through those stages untouched or via the
elementwise `pd.to_datetime(errors="coerce")` and play no role in the
claims below. -/
structure EntityRec where
  lei : PdVal
  legalName : PdVal
  entityStatus : PdVal
  city : PdVal
  country : PdVal
  addressLine1 : PdVal
  postalCode : PdVal
  deriving DecidableEq, Repr

/-- `LEIDataNormalizer.VALID_ENTITY_STATUS`. -/
def VALID_ENTITY_STATUS : List String :=
  ["ACTIVE", "INACTIVE", "MERGED", "OBSOLETE", "PENDING_ARCHIVAL"]

/-- `LEIDataNormalizer._convert_types`, per record:
`df["lei"] = df["lei"].astype(str).str.strip()`;
`df["entityStatus"] = df["entityStatus"].astype(str).str.upper()`;
for each free-text column in `["legalName", "city", "country",
"addressLine1", "postalCode"]`:
`df[col] = df[col].astype(str).fillna("").str.strip()`. -/
def lei_convert_types (r : EntityRec) : EntityRec :=
  { r with
    lei := str_strip (astype_str r.lei)
    entityStatus := str_upper (astype_str r.entityStatus)
    legalName := str_strip (fillna "" (astype_str r.legalName))
    city := str_strip (fillna "" (astype_str r.city))
    country := str_strip (fillna "" (astype_str r.country))
    addressLine1 := str_strip (fillna "" (astype_str r.addressLine1))
    postalCode := str_strip (fillna "" (astype_str r.postalCode)) }

/-- `LEIDataNormalizer._convert_types` over the whole batch (all the
pandas column assignments above are elementwise). -/
def lei_convert_types_batch (df : List EntityRec) : List EntityRec :=
  df.map lei_convert_types

/-- The per-required-column removal mask of `_validate_required_fields`:
`df[col].notna() & (df[col] != "")`. -/
def required_mask (v : PdVal) : Bool :=
  pd_notna v && pd_ne_str v ""

/-- `LEIDataNormalizer._validate_required_fields`: filter on the `lei`
mask, then on the `legalName` mask (`required = ["lei", "legalName"]`). -/
def lei_validate_required_fields (df : List EntityRec) : List EntityRec :=
  let df1 := df.filter (fun r => required_mask r.lei)
  df1.filter (fun r => required_mask r.legalName)

/-- `LEIDataNormalizer._standardize_values`: any `entityStatus` outside
`VALID_ENTITY_STATUS` is rewritten to `"ACTIVE"`
(`df.loc[mask, "entityStatus"] = "ACTIVE"`). -/
def lei_standardize_values (df : List EntityRec) : List EntityRec :=
  df.map fun r =>
    if pd_isin VALID_ENTITY_STATUS r.entityStatus then r
    else { r with entityStatus := PdVal.str "ACTIVE" }

/-- Record-dropping/rewriting core of `LEIDataNormalizer.normalize_lei_data`
(steps 2–4).  Step 1 (`_map_columns`) is embedded by the `EntityRec` type
itself; step 5 (`_detect_duplicates`) is diagnostic-only and returns the
frame unchanged; step 6 (`_generate_entity_ids`) appends a derived hash
column and neither drops records nor touches the columns above. -/
def normalize_lei_data (df : List EntityRec) : List EntityRec :=
  lei_standardize_values (lei_validate_required_fields (lei_convert_types_batch df))

/-- A relationship record after `RelationshipDataNormalizer._map_columns`.
Date columns and `ownershipPercentage` are untouched by every claim and
their coercions (`pd.to_datetime(errors="coerce")`,
`pd.to_numeric(errors="coerce").clip(0, 100)`) are elementwise; they are
omitted from the embedding. -/
structure RelRec where
  childLei : PdVal
  parentLei : PdVal
  relationshipType : PdVal
  relationshipStatus : PdVal
  deriving DecidableEq, Repr

/-- `RelationshipDataNormalizer.VALID_RELATIONSHIP_STATUS`. -/
def VALID_RELATIONSHIP_STATUS : List String :=
  ["ACTIVE", "INACTIVE", "OBSOLETE"]

/-- `RelationshipDataNormalizer._convert_types`, per record: for `col` in
`["childLei", "parentLei"]`,
`df[col] = df[col].astype(str).str.strip().str.upper()`;
`df["relationshipStatus"] = df["relationshipStatus"].astype(str).str.upper()`. -/
def rr_convert_types (r : RelRec) : RelRec :=
  { r with
    childLei := str_upper (str_strip (astype_str r.childLei))
    parentLei := str_upper (str_strip (astype_str r.parentLei))
    relationshipStatus := str_upper (astype_str r.relationshipStatus) }

/-- `RelationshipDataNormalizer._convert_types` over the batch. -/
def rr_convert_types_batch (df : List RelRec) : List RelRec :=
  df.map rr_convert_types

/-- `RelationshipDataNormalizer._validate_required_fields`
(`required = ["childLei", "parentLei"]`). -/
def rr_validate_required_fields (df : List RelRec) : List RelRec :=
  let df1 := df.filter (fun r => required_mask r.childLei)
  df1.filter (fun r => required_mask r.parentLei)

/-- Outcome of `RelationshipDataNormalizer._check_referential_integrity`:
the surviving frame together with the two successive increments the method
makes to `report.referential_integrity_issues` (`invalid_child.sum()`
first, then `invalid_parent.sum()` computed on the already
child-filtered frame). -/
structure RefIntegrityResult where
  out : List RelRec
  childViolations : Nat
  parentViolations : Nat
  deriving DecidableEq, Repr

/-- `RelationshipDataNormalizer._check_referential_integrity`: compute
`invalid_child = ~df["childLei"].isin(valid_leis)`, add its sum to the
violation counter and filter it out; then, on the filtered frame, compute
`invalid_parent = ~df["parentLei"].isin(valid_leis)`, add its sum and
filter it out.  (The `if invalid.sum() > 0` guards in the source only skip
a zero increment and an empty warning; the resulting frame and counters
are identical.) -/
def check_referential_integrity (valid_leis : List String) (df : List RelRec) :
    RefIntegrityResult :=
  let childViol := df.countP (fun r => !(pd_isin valid_leis r.childLei))
  let df1 := df.filter (fun r => pd_isin valid_leis r.childLei)
  let parentViol := df1.countP (fun r => !(pd_isin valid_leis r.parentLei))
  let df2 := df1.filter (fun r => pd_isin valid_leis r.parentLei)
  ⟨df2, childViol, parentViol⟩

/-- `RelationshipDataNormalizer._standardize_values`: any
`relationshipStatus` outside `VALID_RELATIONSHIP_STATUS` is rewritten to
`"ACTIVE"`. -/
def rr_standardize_values (df : List RelRec) : List RelRec :=
  df.map fun r =>
    if pd_isin VALID_RELATIONSHIP_STATUS r.relationshipStatus then r
    else { r with relationshipStatus := PdVal.str "ACTIVE" }

/-- Record-dropping/rewriting core of
`RelationshipDataNormalizer.normalize_relationship_data` (steps 2–5):
type conversion, required-field validation, referential-integrity check
against `valid_leis`, value standardization.  Step 1 (`_map_columns`) is
embedded by the `RelRec` type; step 6 (`_detect_duplicates`) is
diagnostic-only. -/
def normalize_relationship_data (valid_leis : List String) (df : List RelRec) :
    List RelRec :=
  rr_standardize_values
    (check_referential_integrity valid_leis (rr_validate_required_fields (rr_convert_types_batch df))).out

/-- The counters of `DataQualityReport` (the list-valued fields `warnings`,
`errors`, `nulls_by_column` are kept as counts; the `report()` view exposes
exactly `len(warnings)` / `len(errors)` anyway). -/
structure DataQualityReport where
  total_records : Nat
  valid_records : Nat
  invalid_records : Nat
  duplicates : Nat
  referential_integrity_issues : Nat
  deriving DecidableEq, Repr

/-- Python's `round` to an integer: round half to even (banker's
rounding), which is what `round(x, 2)` applies at the second decimal. -/
def python_round_int (q : ℚ) : ℤ :=
  if q - ⌊q⌋ = 1 / 2 then (if Even ⌊q⌋ then ⌊q⌋ else ⌊q⌋ + 1)
  else ⌊q + 1 / 2⌋

/-- Python's `round(q, 2)`. -/
def python_round_2 (q : ℚ) : ℚ :=
  (python_round_int (q * 100) : ℚ) / 100

/-- The `validity_rate` entry of `DataQualityReport.report()`:
`round(self.valid_records / max(self.total_records, 1) * 100, 2)`. -/
def report_validity_rate (rep : DataQualityReport) : ℚ :=
  python_round_2 ((rep.valid_records : ℚ) / (max rep.total_records 1 : ℕ) * 100)

/-- `DataFrame.drop_duplicates(subset=key, keep="first")`: keep a record
iff its key was not seen earlier in the frame (`seen` accumulates the
keys of the records already kept). -/
def drop_duplicates_first {α κ : Type} [DecidableEq κ] (key : α → κ) :
    List κ → List α → List α
  | _, [] => []
  | seen, x :: xs =>
      if key x ∈ seen then drop_duplicates_first key seen xs
      else x :: drop_duplicates_first key (key x :: seen) xs

/-- Number of rows pandas `duplicated(subset=key, keep=False)` marks: the
rows whose key occurs at least twice in the frame. -/
def duplicated_keep_false_count {α κ : Type} [DecidableEq κ] (key : α → κ)
    (df : List α) : Nat :=
  df.countP (fun r => 2 ≤ df.countP (fun x => key x = key r))

/-- Result of a persistence write: the records serialized to the Parquet
snapshot, plus the duplicate-row count reported by the non-fatal
`logger.warning` (0 when the warning branch is not taken).  The function
is total: the dedup path never raises. -/
structure WriteResult (α : Type) where
  written : List α
  dupRowsFlagged : Nat
  deriving DecidableEq, Repr

/-- Dedup-and-write core of `ParquetPersistence.write_legal_entities`:
if `duplicated(subset=["lei"], keep=False)` marks any rows, log a warning
and `drop_duplicates(subset=["lei"], keep="first")`; then serialize. -/
def write_legal_entities (df : List EntityRec) : WriteResult EntityRec :=
  let dups := duplicated_keep_false_count (fun r => r.lei) df
  if 0 < dups then
    ⟨drop_duplicates_first (fun r => r.lei) [] df, dups⟩
  else ⟨df, 0⟩

/-- Dedup-and-write core of `ParquetPersistence.write_relationships`:
uniqueness key `(childLei, parentLei)`, keep-first. -/
def write_relationships (df : List RelRec) : WriteResult RelRec :=
  let dups := duplicated_keep_false_count (fun r => (r.childLei, r.parentLei)) df
  if 0 < dups then
    ⟨drop_duplicates_first (fun r => (r.childLei, r.parentLei)) [] df, dups⟩
  else ⟨df, 0⟩

/-- A filesystem side effect of the persistence layer. -/
inductive FsOp where
  | toParquet (path : String)
  | renameFile (src dst : String)
  deriving DecidableEq, Repr

/-- The filesystem operations `ParquetPersistence.write_legal_entities`
performs for the snapshot artifact: a single direct
`df.to_parquet(self.output_dir / f"legal_entities_{version}.parquet")`
at the final versioned path — no temporary file, no rename. -/
def write_legal_entities_fs_ops (output_dir version : String) : List FsOp :=
  [FsOp.toParquet (output_dir ++ "/legal_entities_" ++ version ++ ".parquet")]

/-- The filesystem operations `ParquetPersistence.write_relationships`
performs: a single direct `df.to_parquet(...)` at the final path. -/
def write_relationships_fs_ops (output_dir version : String) : List FsOp :=
  [FsOp.toParquet (output_dir ++ "/relationships_" ++ version ++ ".parquet")]

/-- `processors.first_existing`: the first candidate present among the
frame's columns, `None` if no candidate matches. -/
def first_existing (col_candidates : List String) (columns : List String) :
    Option String :=
  col_candidates.find? (fun c => columns.contains c)

/-- The shape of a raw tabular batch: its column names and its row count
(schema resolution in `processors.py` branches only on the columns). -/
structure RawFrame where
  columns : List String
  nrows : Nat
  deriving DecidableEq, Repr

/-- Schema resolution of `processors.load_and_normalize_lei_data`: resolve
the identifier/name/status columns with `first_existing`; if no LEI column
is identifiable, `raise RuntimeError(...)` (embedded as `Except.error`);
otherwise keep the resolved columns renamed to the standard names. -/
def load_and_normalize_lei_data (f : RawFrame) : Except String RawFrame :=
  let lei_col := first_existing ["LEI", "lei", "LegalEntityIdentifier"] f.columns
  let name_col := first_existing
    ["LegalName", "EntityLegalName", "Entity.LegalName", "Entity_LegalName"] f.columns
  let status_col := first_existing
    ["EntityStatus", "Entity.EntityStatus", "Entity_Status"] f.columns
  match lei_col with
  | Option.none => Except.error "Couldn't identify LEI column in Level 1 file."
  | Option.some _ =>
      Except.ok
        ⟨["lei"] ++ (if name_col.isSome then ["legal_name"] else [])
          ++ (if status_col.isSome then ["entity_status"] else []), f.nrows⟩

/-- Schema resolution of `processors.load_and_normalize_rr_data`: resolve
start/end node, type and status columns; if the start or the end column is
missing, print a warning and `return pd.DataFrame(columns=["child_lei",
"parent_lei", "relationship_type", "relationship_status"])` — an empty
degraded frame that lets the pipeline continue; otherwise keep the
resolved columns renamed. -/
def load_and_normalize_rr_data (f : RawFrame) : Except String RawFrame :=
  let start_lei_col := first_existing
    ["StartNodeID", "StartNode.NodeID", "StartNodeNodeID", "StartNode_ID"] f.columns
  let end_lei_col := first_existing
    ["EndNodeID", "EndNode.NodeID", "EndNodeNodeID", "EndNode_ID"] f.columns
  let rel_type_col := first_existing
    ["RelationshipType", "Relationship.RelationshipType", "Relationship_Type"] f.columns
  let rel_status_col := first_existing
    ["RelationshipStatus", "RegistrationStatus", "Registration.RegistrationStatus",
      "Registration_Status"] f.columns
  match start_lei_col, end_lei_col with
  | Option.some _, Option.some _ =>
      Except.ok
        ⟨["child_lei", "parent_lei"]
          ++ (if rel_type_col.isSome then ["relationship_type"] else [])
          ++ (if rel_status_col.isSome then ["relationship_status"] else []), f.nrows⟩
  | _, _ =>
      Except.ok ⟨["child_lei", "parent_lei", "relationship_type", "relationship_status"], 0⟩

/-! ### Helper lemmas -/

lemma countP_add_countP_not {α : Type} (p : α → Bool) (l : List α) :
    l.countP p + l.countP (fun a => !(p a)) = l.length := by
  induction l with
  | nil => rfl
  | cons x xs ih =>
    cases h : p x <;>
      simp [List.countP_cons, h, ← ih, Nat.add_assoc, Nat.add_comm, Nat.add_left_comm]

/-- Is the filesystem operation a rename? `ParquetPersistence` never
performs one. -/
def is_rename : FsOp → Bool
  | .renameFile _ _ => true
  | _ => false

/-! ### C1 — identifier coercion -/

/-- A raw entity record whose `lei` carries whitespace and lower-case
letters. -/
def c1_entity : EntityRec :=
  ⟨.str " 5493ab ", .str "Acme", .str "ACTIVE", .nan, .nan, .nan, .nan⟩

/-- C1 is false on the code: `LEIDataNormalizer._convert_types` only strips
the `lei` column (`astype(str).str.strip()`, no `.str.upper()`), so a
lower-case `lei` stays lower-case, while the very same raw string in the
`childLei` column of `RelationshipDataNormalizer._convert_types` is both
stripped and upper-cased. -/
theorem lei_not_uppercased :
    (lei_convert_types c1_entity).lei = PdVal.str "5493ab"
      ∧ (lei_convert_types c1_entity).lei
          ≠ PdVal.str (py_upper (py_strip (py_str c1_entity.lei)))
      ∧ (rr_convert_types ⟨.str " 5493ab ", .str "X", .nan, .nan⟩).childLei
          = PdVal.str "5493AB" := by
  refine ⟨rfl, ?_, rfl⟩
  decide

/-- C1 (amended): `LEIDataNormalizer._convert_types` trims — but does not
upper-case — the `lei` of every record, while
`RelationshipDataNormalizer._convert_types` trims and upper-cases
`childLei` and `parentLei` of every record. -/
theorem identifier_coercion_transforms (r : EntityRec) (t : RelRec) :
    (lei_convert_types r).lei = PdVal.str (py_strip (py_str r.lei))
      ∧ (rr_convert_types t).childLei
          = PdVal.str (py_upper (py_strip (py_str t.childLei)))
      ∧ (rr_convert_types t).parentLei
          = PdVal.str (py_upper (py_strip (py_str t.parentLei))) :=
  ⟨rfl, rfl, rfl⟩

/-! ### C7 — coercion never drops records -/

/-- C7: for every entity batch and every relationship batch, the
type-coercion stage returns exactly as many records as it received — every
pandas operation in `_convert_types` is an elementwise column rewrite. -/
theorem coercion_preserves_length (dfE : List EntityRec) (dfR : List RelRec) :
    (lei_convert_types_batch dfE).length = dfE.length
      ∧ (rr_convert_types_batch dfR).length = dfR.length := by
  constructor <;> simp [lei_convert_types_batch, rr_convert_types_batch]

/-! ### C4 — free-text coercion and nulls -/

/-- A raw entity record with a `None` legal name and an untrimmed city. -/
def c4_entity : EntityRec :=
  ⟨.str "LEI1", .pyNone, .str "ACTIVE", .str "  Berlin  ", .nan, .nan, .nan⟩

/-- A raw entity record with a NaN legal name. -/
def c4_entity_nan : EntityRec :=
  ⟨.str "LEI2", .nan, .str "ACTIVE", .nan, .nan, .nan, .nan⟩

/-- C4 fails on the code: in `_convert_types` the free-text pipeline is
`astype(str).fillna("").str.strip()`, and `astype(str)` stringifies a
missing value to `"None"`/`"nan"` before `fillna("")` runs, so `fillna`
is dead and a null `legalName` becomes the non-empty placeholder `"None"`
(or `"nan"`), not the empty string.  Trimming itself does happen. -/
theorem null_text_field_becomes_placeholder :
    (lei_convert_types c4_entity).legalName = PdVal.str "None"
      ∧ (lei_convert_types c4_entity).legalName ≠ PdVal.str ""
      ∧ (lei_convert_types c4_entity_nan).legalName = PdVal.str "nan"
      ∧ (lei_convert_types c4_entity).city = PdVal.str "Berlin" := by
  refine ⟨rfl, ?_, rfl, ?_⟩ <;> decide

/-- The behavior the free-text coercion actually implements: every
free-text field is rendered to a string (nulls to their `"nan"`/`"None"`
placeholder) and trimmed; a null never becomes the empty string. -/
theorem text_field_coercion (r : EntityRec) :
    (lei_convert_types r).legalName = PdVal.str (py_strip (py_str r.legalName))
      ∧ (lei_convert_types r).city = PdVal.str (py_strip (py_str r.city))
      ∧ (lei_convert_types r).country = PdVal.str (py_strip (py_str r.country))
      ∧ (lei_convert_types r).addressLine1 = PdVal.str (py_strip (py_str r.addressLine1))
      ∧ (lei_convert_types r).postalCode = PdVal.str (py_strip (py_str r.postalCode)) :=
  ⟨rfl, rfl, rfl, rfl, rfl⟩

/-! ### C6 — persistence writes are not performed atomically -/

/-- C6 fails on the code: both persistence write methods call
`df.to_parquet(...)` directly on the final versioned path.  There is no
temporary location and no rename/move, so nothing prevents a concurrent
`read(latest)` from observing a partially-written snapshot. -/
theorem persistence_write_not_atomic (dir v : String) :
    write_legal_entities_fs_ops dir v
        = [FsOp.toParquet (dir ++ "/legal_entities_" ++ v ++ ".parquet")]
      ∧ (write_legal_entities_fs_ops dir v).all (fun op => !(is_rename op)) = true
      ∧ write_relationships_fs_ops dir v
          = [FsOp.toParquet (dir ++ "/relationships_" ++ v ++ ".parquet")]
      ∧ (write_relationships_fs_ops dir v).all (fun op => !(is_rename op)) = true :=
  ⟨rfl, rfl, rfl, rfl⟩

/-! ### C3 — unresolvable schema -/

/-- C3 fails on the code: on a batch in which no identifier column can be
resolved, `load_and_normalize_lei_data` raises
(`RuntimeError("Couldn't identify LEI column in Level 1 file.")`), but
`load_and_normalize_rr_data` does not — it prints a warning and returns an
empty degraded frame with the four standard columns, letting the pipeline
continue. -/
theorem rr_unresolvable_schema_not_fatal :
    load_and_normalize_rr_data ⟨["SomeUnknownColumn"], 7⟩
        = Except.ok ⟨["child_lei", "parent_lei", "relationship_type",
            "relationship_status"], 0⟩
      ∧ load_and_normalize_lei_data ⟨["SomeUnknownColumn"], 7⟩
          = Except.error "Couldn't identify LEI column in Level 1 file." :=
  ⟨rfl, rfl⟩

/-- C3 (amended): on a source batch in which no identifier column can be
resolved, the entity pipeline aborts with a fatal schema error, while the
relationship pipeline proceeds, returning a degraded empty frame. -/
theorem unresolvable_schema_outcomes (f : RawFrame)
    (hlei : first_existing ["LEI", "lei", "LegalEntityIdentifier"] f.columns
      = Option.none)
    (hstart : first_existing
      ["StartNodeID", "StartNode.NodeID", "StartNodeNodeID", "StartNode_ID"] f.columns
      = Option.none) :
    load_and_normalize_lei_data f
        = Except.error "Couldn't identify LEI column in Level 1 file."
      ∧ load_and_normalize_rr_data f
          = Except.ok ⟨["child_lei", "parent_lei", "relationship_type",
              "relationship_status"], 0⟩ := by
  constructor
  · simp [load_and_normalize_lei_data, hlei]
  · simp [load_and_normalize_rr_data, hstart]

/-- Witness for `unresolvable_schema_outcomes` at a concrete frame whose
only column matches no identifier candidate. -/
theorem unresolvable_schema_outcomes_witness :
    load_and_normalize_lei_data ⟨["Foo"], 3⟩
        = Except.error "Couldn't identify LEI column in Level 1 file."
      ∧ load_and_normalize_rr_data ⟨["Foo"], 3⟩
          = Except.ok ⟨["child_lei", "parent_lei", "relationship_type",
              "relationship_status"], 0⟩ :=
  unresolvable_schema_outcomes ⟨["Foo"], 3⟩ (by decide) (by decide)

/-! ### C10 — stringified nulls pass the required-field filter -/

/-- Does a raw cell hold a string that trims to the empty string?  These
(and only these) raw required-field values get a record dropped by
`_validate_required_fields` after coercion. -/
def trims_to_empty : PdVal → Bool
  | .str s => py_strip s = ""
  | _ => false

lemma normalize_lei_singleton_empty_iff (r : EntityRec) :
    normalize_lei_data [r] = []
      ↔ (required_mask (lei_convert_types r).lei = false
          ∨ required_mask (lei_convert_types r).legalName = false) := by
  simp only [normalize_lei_data, lei_convert_types_batch, lei_validate_required_fields,
    List.map_cons, List.map_nil]
  cases h1 : required_mask (lei_convert_types r).lei <;>
    cases h2 : required_mask (lei_convert_types r).legalName <;>
      simp [lei_standardize_values, List.filter_cons, h1, h2]

lemma required_mask_convert (v : PdVal) :
    required_mask (str_strip (fillna "" (astype_str v))) = !(trims_to_empty v)
      ∧ required_mask (str_strip (astype_str v)) = !(trims_to_empty v) := by
  cases v with
  | nan => exact ⟨by decide, by decide⟩
  | pyNone => exact ⟨by decide, by decide⟩
  | str s =>
      constructor <;>
        simp [required_mask, astype_str, fillna, str_strip, pd_notna, pd_ne_str,
          trims_to_empty, py_str]

lemma trims_to_empty_isna (v : PdVal) (h : pd_isna v = true) :
    trims_to_empty v = false := by
  cases v with
  | nan => rfl
  | pyNone => rfl
  | str s => simp [pd_isna, pd_notna] at h

/-- C10: a raw entity record whose `lei` or `legalName` is null gets its
null stringified by `astype(str)` into the non-empty `"nan"`/`"None"`
placeholder, so that field passes the required-field mask
`notna & (col != "")`; a (singleton) record is dropped by normalization
precisely when a required field is a string trimming to the empty
string. -/
theorem null_identifier_survives (r : EntityRec) :
    (pd_isna r.lei = true → required_mask (lei_convert_types r).lei = true)
      ∧ (pd_isna r.legalName = true →
          required_mask (lei_convert_types r).legalName = true)
      ∧ (normalize_lei_data [r] = []
          ↔ (trims_to_empty r.lei || trims_to_empty r.legalName) = true) := by
  have h1 : required_mask (lei_convert_types r).lei = !(trims_to_empty r.lei) :=
    (required_mask_convert r.lei).2
  have h2 : required_mask (lei_convert_types r).legalName
      = !(trims_to_empty r.legalName) :=
    (required_mask_convert r.legalName).1
  refine ⟨?_, ?_, ?_⟩
  · intro h; rw [h1, trims_to_empty_isna r.lei h]; rfl
  · intro h; rw [h2, trims_to_empty_isna r.legalName h]; rfl
  · rw [normalize_lei_singleton_empty_iff, h1, h2]
    cases ha : trims_to_empty r.lei <;> cases hb : trims_to_empty r.legalName <;>
      simp [ha, hb]

/-- Witness for `null_identifier_survives`: a record with NaN `lei` and
`None` `legalName` survives normalization (both placeholder strings are
non-empty). -/
theorem null_identifier_survives_witness :
    required_mask (lei_convert_types ⟨.nan, .pyNone, .nan, .nan, .nan, .nan, .nan⟩).lei = true
      ∧ required_mask
          (lei_convert_types ⟨.nan, .pyNone, .nan, .nan, .nan, .nan, .nan⟩).legalName = true
      ∧ ¬ normalize_lei_data [(⟨.nan, .pyNone, .nan, .nan, .nan, .nan, .nan⟩ : EntityRec)] = [] := by
  have h := null_identifier_survives ⟨.nan, .pyNone, .nan, .nan, .nan, .nan, .nan⟩
  refine ⟨h.1 (by decide), h.2.1 (by decide), ?_⟩
  rw [h.2.2]
  decide

/-! ### C5 — referential-integrity invariant -/

/-- C5: no record surviving `normalize_relationship_data` run against a
valid-entity set `V` has `childLei ∉ V` or `parentLei ∉ V`: the
child-side filter passes only `childLei ∈ V`, the parent-side filter then
passes only `parentLei ∈ V`, and value standardization afterwards never
touches the two identifier fields. -/
theorem referential_integrity_invariant (V : List String) (df : List RelRec)
    (r : RelRec) (hr : r ∈ normalize_relationship_data V df) :
    pd_isin V r.childLei = true ∧ pd_isin V r.parentLei = true := by
  simp only [normalize_relationship_data, rr_standardize_values,
    check_referential_integrity, List.mem_map] at hr
  obtain ⟨s, hs, hmap⟩ := hr
  rw [List.mem_filter] at hs
  obtain ⟨hs1, hp⟩ := hs
  rw [List.mem_filter] at hs1
  obtain ⟨_, hc⟩ := hs1
  have hch : r.childLei = s.childLei := by rw [← hmap]; split <;> rfl
  have hpp : r.parentLei = s.parentLei := by rw [← hmap]; split <;> rfl
  exact ⟨hch ▸ hc, hpp ▸ hp⟩

/-- Witness for `referential_integrity_invariant`: a concrete raw batch
whose record survives normalization against `V = ["A", "B"]`. -/
theorem referential_integrity_invariant_witness :
    pd_isin ["A", "B"] (⟨.str "A", .str "B", .nan, .str "ACTIVE"⟩ : RelRec).childLei = true
      ∧ pd_isin ["A", "B"] (⟨.str "A", .str "B", .nan, .str "ACTIVE"⟩ : RelRec).parentLei = true :=
  referential_integrity_invariant ["A", "B"]
    [⟨.str " a ", .str "b", .nan, .str "active"⟩]
    ⟨.str "A", .str "B", .nan, .str "ACTIVE"⟩ (by decide)

/-! ### C2 — referential-integrity counting -/

/-- A converted relationship record whose `childLei` and `parentLei` are
both outside the valid set `[]`. -/
def c2_rel : RelRec := ⟨.str "AAA", .str "BBB", .nan, .str "ACTIVE"⟩

/-- C2 is false on the code: `_check_referential_integrity` re-filters
sequentially — the parent-side mask is computed on the already
child-filtered frame — so a record with `childLei ∉ V` and `parentLei ∉ V`
increments only the child-side count (`childViolations = 1`,
`parentViolations = 0`), not both, contradicting the claimed
same-input-set one-pass evaluation. -/
theorem both_sides_invalid_counted_once :
    pd_isin [] c2_rel.childLei = false
      ∧ pd_isin [] c2_rel.parentLei = false
      ∧ check_referential_integrity [] [c2_rel] = ⟨[], 1, 0⟩ := by
  refine ⟨rfl, rfl, ?_⟩
  decide

/-- C2 (amended): the two membership checks of
`_check_referential_integrity` are applied sequentially (the parent-side
check re-filters the child-surviving subset), so the child-side count is
the number of records with invalid `childLei`, the parent-side count is
the number of records with valid `childLei` but invalid `parentLei` — a
record failing both is counted once, on the child side only — while every
record failing either predicate is removed exactly once, and the total
number removed (equally, the sum of the two counts) equals the number of
records failing either predicate. -/
lemma countP_invalid_split (V : List String) (df : List RelRec) :
    df.countP (fun r => !(pd_isin V r.childLei))
        + df.countP (fun r => pd_isin V r.childLei && !(pd_isin V r.parentLei))
      = df.countP (fun r => !(pd_isin V r.childLei) || !(pd_isin V r.parentLei)) := by
  induction df with
  | nil => rfl
  | cons x xs ih =>
      simp only [List.countP_cons]
      cases pd_isin V x.childLei <;> cases pd_isin V x.parentLei <;> simp <;> omega

theorem referential_integrity_sequential_counts (V : List String)
    (df : List RelRec) :
    (check_referential_integrity V df).childViolations
        = df.countP (fun r => !(pd_isin V r.childLei))
      ∧ (check_referential_integrity V df).parentViolations
          = df.countP (fun r => pd_isin V r.childLei && !(pd_isin V r.parentLei))
      ∧ df.length
          = (check_referential_integrity V df).out.length
            + df.countP (fun r => !(pd_isin V r.childLei) || !(pd_isin V r.parentLei))
      ∧ (check_referential_integrity V df).childViolations
            + (check_referential_integrity V df).parentViolations
          = df.countP (fun r => !(pd_isin V r.childLei) || !(pd_isin V r.parentLei)) := by
  have hpar : (check_referential_integrity V df).parentViolations
      = df.countP (fun r => pd_isin V r.childLei && !(pd_isin V r.parentLei)) := by
    show ((df.filter (fun r => pd_isin V r.childLei)).countP
        (fun r => !(pd_isin V r.parentLei))) = _
    rw [List.countP_filter]
    congr 1
    funext r
    cases pd_isin V r.childLei <;> cases pd_isin V r.parentLei <;> rfl
  have hout : (check_referential_integrity V df).out.length
      = df.countP (fun r => pd_isin V r.childLei && pd_isin V r.parentLei) := by
    show ((df.filter (fun r => pd_isin V r.childLei)).filter
        (fun r => pd_isin V r.parentLei)).length = _
    rw [List.filter_filter, ← List.countP_eq_length_filter]
    congr 1
    funext r
    cases pd_isin V r.childLei <;> cases pd_isin V r.parentLei <;> rfl
  have hsplit := countP_add_countP_not
    (fun r => pd_isin V r.childLei && pd_isin V r.parentLei) df
  have hnot : df.countP
      (fun r => !(pd_isin V r.childLei && pd_isin V r.parentLei))
      = df.countP (fun r => !(pd_isin V r.childLei) || !(pd_isin V r.parentLei)) := by
    congr 1
    funext r
    cases pd_isin V r.childLei <;> cases pd_isin V r.parentLei <;> rfl
  refine ⟨rfl, hpar, ?_, ?_⟩
  · rw [hout]
    rw [hnot] at hsplit
    omega
  · show df.countP (fun r => !(pd_isin V r.childLei))
        + (check_referential_integrity V df).parentViolations = _
    rw [hpar]
    exact countP_invalid_split V df

/-! ### C8 — validity rate -/

lemma python_round_int_nonneg {q : ℚ} (hq : 0 ≤ q) : 0 ≤ python_round_int q := by
  unfold python_round_int
  split
  · have hfl : (0 : ℤ) ≤ ⌊q⌋ := Int.floor_nonneg.mpr hq
    split
    · exact hfl
    · omega
  · exact Int.floor_nonneg.mpr (by linarith)

lemma python_round_int_le {q : ℚ} {n : ℤ} (hq : q ≤ n) : python_round_int q ≤ n := by
  unfold python_round_int
  split
  · next htie =>
      have hql : (⌊q⌋ : ℚ) < q := by
        have : (⌊q⌋ : ℚ) = q - 1 / 2 := by linarith
        rw [this]; linarith
      have hlt : ⌊q⌋ < n := by exact_mod_cast hql.trans_le hq
      split
      · omega
      · omega
  · have : ⌊q + 1 / 2⌋ < n + 1 := by
      rw [Int.floor_lt]
      push_cast
      linarith
    omega

lemma python_round_2_nonneg {q : ℚ} (hq : 0 ≤ q) : 0 ≤ python_round_2 q := by
  rw [python_round_2]
  have := python_round_int_nonneg (by positivity : (0 : ℚ) ≤ q * 100)
  positivity

lemma python_round_2_le_100 {q : ℚ} (hq : q ≤ 100) : python_round_2 q ≤ 100 := by
  rw [python_round_2]
  have h1 : q * 100 ≤ ((10000 : ℤ) : ℚ) := by push_cast; nlinarith
  have h2 := python_round_int_le h1
  rw [div_le_iff₀ (by norm_num : (0 : ℚ) < 100)]
  calc (python_round_int (q * 100) : ℚ) ≤ ((10000 : ℤ) : ℚ) := by exact_mod_cast h2
    _ = 100 * 100 := by norm_num

lemma python_round_2_zero : python_round_2 0 = 0 := by
  have h0 : (0 : ℚ) * 100 = 0 := by norm_num
  have htie : ¬((0 : ℚ) - ⌊(0 : ℚ)⌋ = 1 / 2) := by
    rw [Int.floor_zero]; norm_num
  have hfl : ⌊(0 : ℚ) + 1 / 2⌋ = 0 := by
    rw [zero_add, Int.floor_eq_zero_iff, Set.mem_Ico]
    constructor <;> norm_num
  rw [python_round_2, h0, python_round_int, if_neg htie, hfl]
  norm_num

/-- C8: the `validity_rate` of every quality report equals
`round(valid_records / total_records * 100, 2)` whenever
`total_records ≥ 1` (the code divides by `max(total_records, 1)`), it lies
in `[0, 100]` whenever `valid_records ≤ total_records`, and when
`total_records = 0` it is `0` rather than a division-by-zero error — the
`max(·, 1)` guard makes the function total. -/
theorem validity_rate_bounds (rep : DataQualityReport)
    (h : rep.valid_records ≤ rep.total_records) :
    (1 ≤ rep.total_records →
        report_validity_rate rep
          = python_round_2 ((rep.valid_records : ℚ) / (rep.total_records : ℚ) * 100))
      ∧ 0 ≤ report_validity_rate rep
      ∧ report_validity_rate rep ≤ 100
      ∧ (rep.total_records = 0 → report_validity_rate rep = 0) := by
  have hkey : report_validity_rate rep
      = python_round_2
          ((rep.valid_records : ℚ) / ((max rep.total_records 1 : ℕ) : ℚ) * 100) := rfl
  have hmaxpos : (0 : ℚ) < ((max rep.total_records 1 : ℕ) : ℚ) := by
    have h1 : (1 : ℕ) ≤ max rep.total_records 1 := le_max_right _ 1
    exact_mod_cast Nat.lt_of_lt_of_le Nat.zero_lt_one h1
  refine ⟨?_, ?_, ?_, ?_⟩
  · intro h1
    rw [hkey, Nat.max_eq_left h1]
  · rw [hkey]
    exact python_round_2_nonneg (by positivity)
  · rw [hkey]
    refine python_round_2_le_100 ?_
    have hle : (rep.valid_records : ℚ) ≤ ((max rep.total_records 1 : ℕ) : ℚ) := by
      exact_mod_cast h.trans (le_max_left _ 1)
    have hd : (rep.valid_records : ℚ) / ((max rep.total_records 1 : ℕ) : ℚ) ≤ 1 := by
      rw [div_le_one hmaxpos]; exact hle
    nlinarith
  · intro h0
    have hv0 : rep.valid_records = 0 := by omega
    have harg : ((rep.valid_records : ℕ) : ℚ)
        / ((max rep.total_records 1 : ℕ) : ℚ) * 100 = 0 := by
      rw [hv0]
      norm_num
    rw [hkey, harg]
    exact python_round_2_zero

/-- Witness for `validity_rate_bounds` at the concrete report
`total = 4, valid = 3`. -/
theorem validity_rate_bounds_witness :
    (1 ≤ (4 : ℕ) →
        report_validity_rate ⟨4, 3, 1, 0, 0⟩
          = python_round_2 ((3 : ℚ) / (4 : ℚ) * 100))
      ∧ 0 ≤ report_validity_rate ⟨4, 3, 1, 0, 0⟩
      ∧ report_validity_rate ⟨4, 3, 1, 0, 0⟩ ≤ 100
      ∧ ((4 : ℕ) = 0 → report_validity_rate ⟨4, 3, 1, 0, 0⟩ = 0) :=
  validity_rate_bounds ⟨4, 3, 1, 0, 0⟩ (by decide)

/-! ### C9 — persistence-time keep-first deduplication -/

section DropDup

variable {α κ : Type} [DecidableEq κ] (key : α → κ)

lemma drop_duplicates_first_sublist (seen : List κ) (l : List α) :
    List.Sublist (drop_duplicates_first key seen l) l := by
  induction l generalizing seen with
  | nil => simp [drop_duplicates_first]
  | cons x xs ih =>
      rw [drop_duplicates_first]
      split
      · exact (ih seen).trans (List.sublist_cons_self x xs)
      · exact (ih (key x :: seen)).cons₂ x

lemma mem_key_drop_duplicates_first (seen : List κ) (l : List α) (k : κ) :
    k ∈ (drop_duplicates_first key seen l).map key
      ↔ k ∈ l.map key ∧ k ∉ seen := by
  induction l generalizing seen with
  | nil => simp [drop_duplicates_first]
  | cons x xs ih =>
      rw [drop_duplicates_first]
      split
      · next h =>
          rw [ih]
          simp only [List.map_cons, List.mem_cons]
          constructor
          · rintro ⟨hm, hs⟩; exact ⟨Or.inr hm, hs⟩
          · rintro ⟨hm | hm, hs⟩
            · exact absurd (hm ▸ h) hs
            · exact ⟨hm, hs⟩
      · next h =>
          simp only [List.map_cons, List.mem_cons, ih, List.mem_cons]
          by_cases hk : k = key x
          · subst hk
            simp [h]
          · simp [hk]

lemma nodup_key_drop_duplicates_first (seen : List κ) (l : List α) :
    ((drop_duplicates_first key seen l).map key).Nodup := by
  induction l generalizing seen with
  | nil => simp [drop_duplicates_first]
  | cons x xs ih =>
      rw [drop_duplicates_first]
      split
      · exact ih seen
      · next h =>
          simp only [List.map_cons, List.nodup_cons]
          refine ⟨?_, ih (key x :: seen)⟩
          rw [mem_key_drop_duplicates_first]
          simp

lemma find?_drop_duplicates_first (seen : List κ) (l : List α) (r : α)
    (hr : r ∈ drop_duplicates_first key seen l) :
    l.find? (fun x => decide (key x = key r)) = some r := by
  induction l generalizing seen with
  | nil => simp [drop_duplicates_first] at hr
  | cons x xs ih =>
      rw [drop_duplicates_first] at hr
      by_cases h : key x ∈ seen
      · rw [if_pos h] at hr
        have hkr : key r ∉ seen :=
          ((mem_key_drop_duplicates_first key seen xs (key r)).mp
            (List.mem_map_of_mem key hr)).2
        have hne : ¬(key x = key r) := fun he => hkr (he ▸ h)
        rw [List.find?_cons_of_neg _ (by simpa using hne)]
        exact ih seen hr
      · rw [if_neg h] at hr
        rcases List.mem_cons.mp hr with rfl | hr'
        · exact List.find?_cons_of_pos _ (by simp)
        · have hkr : key r ∉ key x :: seen :=
            ((mem_key_drop_duplicates_first key (key x :: seen) xs (key r)).mp
              (List.mem_map_of_mem key hr')).2
          have hne : ¬(key x = key r) := fun he =>
            hkr (he ▸ List.mem_cons_self (key x) seen)
          rw [List.find?_cons_of_neg _ (by simpa using hne)]
          exact ih (key x :: seen) hr'

lemma drop_duplicates_first_eq_self (l : List α) :
    ∀ seen : List κ, (l.map key).Nodup → (∀ k ∈ seen, k ∉ l.map key) →
      drop_duplicates_first key seen l = l := by
  induction l with
  | nil => intro seen _ _; rfl
  | cons x xs ih =>
      intro seen hnd hdisj
      rw [drop_duplicates_first, if_neg (fun hx => hdisj (key x) hx (by simp))]
      simp only [List.map_cons, List.nodup_cons] at hnd
      congr 1
      refine ih (key x :: seen) hnd.2 ?_
      intro k hk hm
      rcases List.mem_cons.mp hk with rfl | hk'
      · exact hnd.1 hm
      · exact hdisj k hk' (by simp [hm])

lemma nodup_of_duplicated_count_zero (l : List α)
    (h : duplicated_keep_false_count key l = 0) : (l.map key).Nodup := by
  rw [duplicated_keep_false_count, List.countP_eq_zero] at h
  rw [List.nodup_iff_count_le_one]
  intro a
  by_cases ha : a ∈ l.map key
  · obtain ⟨r, hr, rfl⟩ := List.mem_map.mp ha
    have h2 := h r hr
    simp only [decide_eq_true_eq, not_le] at h2
    have hcount : (l.map key).count (key r)
        = l.countP (fun x => decide (key x = key r)) := by
      rw [List.count, List.countP_map]
      congr 1
    omega
  · rw [List.count_eq_zero.mpr ha]
    omega

end DropDup

lemma write_legal_entities_written (df : List EntityRec) :
    (write_legal_entities df).written
      = drop_duplicates_first (fun r => r.lei) [] df := by
  rw [write_legal_entities]
  split
  · rfl
  · next h =>
      have hnd := nodup_of_duplicated_count_zero (fun r : EntityRec => r.lei) df
        (by omega)
      rw [drop_duplicates_first_eq_self _ df [] hnd (by simp)]

lemma write_relationships_written (df : List RelRec) :
    (write_relationships df).written
      = drop_duplicates_first (fun r => (r.childLei, r.parentLei)) [] df := by
  rw [write_relationships]
  split
  · rfl
  · next h =>
      have hnd := nodup_of_duplicated_count_zero
        (fun r : RelRec => (r.childLei, r.parentLei)) df (by omega)
      rw [drop_duplicates_first_eq_self _ df [] hnd (by simp)]

/-- C9: the records a persistence write serializes contain exactly one
record per distinct uniqueness key (`lei` for entities,
`(childLei, parentLei)` for relationships): the written keys are
duplicate-free, a key appears in the written snapshot iff it appears in
the batch, each written record is the first occurrence of its key in the
batch's original order (`find?` from the left), and the written records
are a sublist of the batch (original order preserved).  The duplicate drop
is reported through the total, non-raising `dupRowsFlagged` count
(`logger.warning`), never an exception. -/
theorem persistence_dedup_keep_first (dfE : List EntityRec) (dfR : List RelRec) :
    ((write_legal_entities dfE).written.map (fun r => r.lei)).Nodup
      ∧ (∀ k, k ∈ (write_legal_entities dfE).written.map (fun r => r.lei)
          ↔ k ∈ dfE.map (fun r => r.lei))
      ∧ (∀ r ∈ (write_legal_entities dfE).written,
          dfE.find? (fun x => decide (x.lei = r.lei)) = some r)
      ∧ List.Sublist (write_legal_entities dfE).written dfE
      ∧ ((write_relationships dfR).written.map
          (fun r => (r.childLei, r.parentLei))).Nodup
      ∧ (∀ k, k ∈ (write_relationships dfR).written.map
            (fun r => (r.childLei, r.parentLei))
          ↔ k ∈ dfR.map (fun r => (r.childLei, r.parentLei)))
      ∧ (∀ r ∈ (write_relationships dfR).written,
          dfR.find? (fun x => decide ((x.childLei, x.parentLei)
            = (r.childLei, r.parentLei))) = some r)
      ∧ List.Sublist (write_relationships dfR).written dfR := by
  rw [write_legal_entities_written, write_relationships_written]
  refine ⟨nodup_key_drop_duplicates_first _ [] dfE, ?_,
    fun r hr => find?_drop_duplicates_first _ [] dfE r hr,
    drop_duplicates_first_sublist _ [] dfE,
    nodup_key_drop_duplicates_first _ [] dfR, ?_,
    fun r hr => find?_drop_duplicates_first _ [] dfR r hr,
    drop_duplicates_first_sublist _ [] dfR⟩
  · intro k
    rw [mem_key_drop_duplicates_first]
    simp
  · intro k
    rw [mem_key_drop_duplicates_first]
    simp

/-- A concrete entity batch with a duplicated `lei`. -/
def c9_entities : List EntityRec :=
  [⟨.str "A", .str "first", .nan, .nan, .nan, .nan, .nan⟩,
   ⟨.str "B", .str "other", .nan, .nan, .nan, .nan, .nan⟩,
   ⟨.str "A", .str "second", .nan, .nan, .nan, .nan, .nan⟩]

/-- A concrete relationship batch with a duplicated
`(childLei, parentLei)`. -/
def c9_rels : List RelRec :=
  [⟨.str "A", .str "B", .nan, .str "ACTIVE"⟩,
   ⟨.str "A", .str "B", .str "IS_OWNED", .str "INACTIVE"⟩]

/-- Witness for `persistence_dedup_keep_first` at concrete batches
containing duplicates. -/
theorem persistence_dedup_keep_first_witness :
    ((write_legal_entities c9_entities).written.map (fun r => r.lei)).Nodup
      ∧ c9_entities.find?
          (fun x => decide (x.lei
            = (⟨.str "A", .str "first", .nan, .nan, .nan, .nan, .nan⟩ : EntityRec).lei))
          = some ⟨.str "A", .str "first", .nan, .nan, .nan, .nan, .nan⟩
      ∧ c9_rels.find?
          (fun x => decide ((x.childLei, x.parentLei)
            = ((⟨.str "A", .str "B", .nan, .str "ACTIVE"⟩ : RelRec).childLei,
               (⟨.str "A", .str "B", .nan, .str "ACTIVE"⟩ : RelRec).parentLei)))
          = some ⟨.str "A", .str "B", .nan, .str "ACTIVE"⟩ := by
  have h := persistence_dedup_keep_first c9_entities c9_rels
  exact ⟨h.1,
    h.2.2.1 ⟨.str "A", .str "first", .nan, .nan, .nan, .nan, .nan⟩ (by decide),
    h.2.2.2.2.2.2.1 ⟨.str "A", .str "B", .nan, .str "ACTIVE"⟩ (by decide)⟩

end KycGraph
